import Mathlib

namespace GitGuard

/-!
Shallow embedding of the gitguard `guard-codex` event-processing pipeline
(`apps/guard-codex/activities.py`, `workflow.py`, `nats_runner.py`,
`tests/fault_injection.py`) and proofs of the specification claims about it.

The relational stores (`codex_seen_deliveries`, `codex_nodes`, `codex_edges`)
are modelled as in-memory tables; the single-statement Postgres upserts
(`ON CONFLICT ... DO UPDATE` / `DO NOTHING`) are modelled as functions on
those tables with the same conflict-resolution semantics.
-/

/-- A JSON-ish attribute value as stored in the `data` jsonb columns.
Numeric payload fields (`risk_score`, `coverage_delta`, ...) are carried
opaquely: the pipeline never computes on them. -/
inductive JVal where
  | str (s : String)
  | int (n : Int)
  | bool (b : Bool)
  | strList (xs : List String)
  | null
deriving DecidableEq, Repr

/-- A jsonb object: an association list from keys to values
(lookup is first-match; well-formed tables keep keys unique). -/
abbrev AttrMap := List (String × JVal)

/-- Key lookup in a jsonb object. -/
def lookupAttr : AttrMap → String → Option JVal
  | [], _ => none
  | (k, v) :: rest, key => if k = key then some v else lookupAttr rest key

/-- Postgres jsonb concatenation `a || b`: the result contains every key of
`a` and of `b`, with the value from `b` winning on shared keys
(shallow merge). -/
def jsonbConcat (a b : AttrMap) : AttrMap :=
  b ++ a.filter (fun p => (lookupAttr b p.1).isNone)

/-! ## Delivery Ledger (`codex_seen_deliveries`) -/

/-- The set of delivery ids recorded in `codex_seen_deliveries`. -/
abbrev Ledger := List String

/-- Embeds `_check_delivery_seen`: `SELECT 1 FROM codex_seen_deliveries
WHERE delivery_id = %s` followed by a fetchone non-null test. -/
def check_delivery_seen : Ledger → String → Bool
  | [], _ => false
  | x :: rest, d => if x = d then true else check_delivery_seen rest d

/-- Embeds `_mark_delivery_seen`: `INSERT INTO codex_seen_deliveries ...
ON CONFLICT (delivery_id) DO NOTHING`; total (never errors), inserts only
when absent. -/
def mark_delivery_seen (led : Ledger) (d : String) : Ledger :=
  if check_delivery_seen led d then led else d :: led

/-- A client call against the ledger: an insert or a membership query. -/
inductive LedgerOp where
  | mark (d : String)
  | query (d : String)
deriving DecidableEq, Repr

/-- Run a sequence of ledger calls; queries do not change the table. -/
def runLedgerOps : List LedgerOp → Ledger → Ledger
  | [], led => led
  | LedgerOp.mark d :: ops, led => runLedgerOps ops (mark_delivery_seen led d)
  | LedgerOp.query _ :: ops, led => runLedgerOps ops led

/-! ## Graph node store (`codex_nodes`) -/

/-- One row of `codex_nodes`.  The database-assigned `id` is in bijection
with the unique natural key `(ntype, nkey)`, so the pair serves as the
node identity in this model. -/
structure GNode where
  ntype : String
  nkey : String
  title : String
  data : AttrMap
deriving DecidableEq, Repr

/-- Node identity as returned by the `RETURNING id` of `_upsert_node`. -/
abbrev NodeId := String × String

abbrev NodeTable := List GNode

/-- Row lookup by the unique key `(ntype, nkey)`. -/
def findNode : NodeTable → String → String → Option GNode
  | [], _, _ => none
  | n :: rest, nt, nk =>
    if n.ntype = nt ∧ n.nkey = nk then some n else findNode rest nt nk

/-- Number of rows carrying the key `(ntype, nkey)`. -/
def countKey (t : NodeTable) (nt nk : String) : Nat :=
  (t.filter (fun n => decide (n.ntype = nt ∧ n.nkey = nk))).length

/-- Embeds `_upsert_node`: `INSERT INTO codex_nodes (ntype, nkey, title, data)
... ON CONFLICT (ntype, nkey) DO UPDATE SET title=EXCLUDED.title,
data=codex_nodes.data || EXCLUDED.data ... RETURNING id`. -/
def upsert_node : NodeTable → String → String → String → AttrMap → NodeTable
  | [], nt, nk, ti, d => [⟨nt, nk, ti, d⟩]
  | n :: rest, nt, nk, ti, d =>
    if n.ntype = nt ∧ n.nkey = nk then
      ⟨nt, nk, ti, jsonbConcat n.data d⟩ :: rest
    else
      n :: upsert_node rest nt nk ti d

/-- The old attributes of the row an upsert lands on (empty if absent). -/
def oldDataOf (t : NodeTable) (nt nk : String) : AttrMap :=
  match findNode t nt nk with
  | some n => n.data
  | none => []

/-! ## Graph edge store (`codex_edges`) -/

/-- One row of `codex_edges`; uniqueness key is `(src, dst, rel)`. -/
structure GEdge where
  src : NodeId
  dst : NodeId
  rel : String
  data : AttrMap
deriving DecidableEq, Repr

abbrev EdgeTable := List GEdge

def findEdge : EdgeTable → NodeId → NodeId → String → Option GEdge
  | [], _, _, _ => none
  | e :: rest, s, t, r =>
    if e.src = s ∧ e.dst = t ∧ e.rel = r then some e else findEdge rest s t r

def countEdgeKey (es : EdgeTable) (s t : NodeId) (r : String) : Nat :=
  (es.filter (fun e => decide (e.src = s ∧ e.dst = t ∧ e.rel = r))).length

/-- Embeds `_link`: `INSERT INTO codex_edges (src, dst, rel, data) ...
ON CONFLICT (src, dst, rel) DO NOTHING`. -/
def link : EdgeTable → NodeId → NodeId → String → AttrMap → EdgeTable
  | [], s, t, r, d => [⟨s, t, r, d⟩]
  | e :: rest, s, t, r, d =>
    if e.src = s ∧ e.dst = t ∧ e.rel = r then e :: rest
    else e :: link rest s t r d

/-! ## Webhook event payloads (inbound JSON, `gh.<kind>.<action>`) -/

/-- The `pull_request` object of a webhook payload, at the granularity the
pipeline reads it: `pr["number"]`, `pr["head"]["sha"]`, `pr.get("title")`,
`pr.get("body")`, `pr.get("user",{}).get("login")`, label names from
`pr.get("labels",[])`, and `pr.get("id")` (used by the NATS runner). -/
structure PRPayload where
  id : Option Int := none
  number : Int
  head_sha : String
  title : Option String := none
  body : Option String := none
  user_login : Option String := none
  labels : List String := []
deriving DecidableEq, Repr

/-- The `release` object of a webhook payload. -/
structure ReleasePayload where
  tag_name : String
  name : Option String := none
  body : Option String := none
  author_login : Option String := none
  created_at : Option String := none
deriving DecidableEq, Repr

/-- A broker message payload.  `Option` marks keys that may be absent;
nested lookup chains that the code collapses with `.get(..., default)`
(`risk.score`, `checks.all_passed`, `repository.full_name`) appear as one
field.  Numeric deltas are carried opaquely (never computed on). -/
structure Event where
  delivery_id : Option String := none
  id : Option String := none
  event : Option String := none
  type : Option String := none
  repository_full_name : Option String := none
  repo : Option String := none
  repo_name : Option String := none
  pull_request : Option PRPayload := none
  release : Option ReleasePayload := none
  risk_score : Int := 0
  checks_all_passed : Bool := false
  changed_files : List String := []
  coverage_delta : Int := 0
  perf_delta : Int := 0
  release_window_state : String := "unknown"
  policies : List String := []
  adrs : List String := []
  summary : Option String := none
deriving DecidableEq, Repr

/-- The Python `a or b` on a string-or-missing value: `None` and `""` are
falsy, anything else is returned as is. -/
def pyOr (a : Option String) (b : String) : String :=
  match a with
  | some s => if s = "" then b else s
  | none => b

/-- Embeds `e.get("delivery_id") or e.get("id", "unknown")`. -/
def deliveryIdOf (e : Event) : String :=
  pyOr e.delivery_id (e.id.getD "unknown")

/-- Embeds `e.get("repository", {}).get("full_name") or e.get("repo", "")`. -/
def repoOf (e : Event) : String :=
  pyOr e.repository_full_name (e.repo.getD "")

/-- Embeds `e.get("event", e.get("type", "unknown"))`. -/
def eventKind (e : Event) : String :=
  e.event.getD (e.type.getD "unknown")

def lastComponentAux : List Char → List Char → List Char
  | [], acc => acc
  | c :: cs, acc =>
    if c = '/' then lastComponentAux cs [] else lastComponentAux cs (acc ++ [c])

/-- Embeds `repo.split("/")[-1]`: everything after the last slash. -/
def lastPathComponent (s : String) : String :=
  String.mk (lastComponentAux s.data [])

/-- The normalized fact record produced by `extract_event_facts`.
`Option` fields are keys present only for some event kinds; `raw` holds
the original payload stored by the fallback branch. -/
structure Facts where
  kind : String
  repo : String
  repo_name : String
  number : Option Int := none
  sha : Option String := none
  title : Option String := none
  author : Option String := none
  risk_score : Option Int := none
  checks_passed : Option Bool := none
  labels : Option (List String) := none
  changed_paths : Option (List String) := none
  coverage_delta : Option Int := none
  perf_delta : Option Int := none
  release_window_state : Option String := none
  policies : Option (List String) := none
  adrs : Option (List String) := none
  summary : Option String := none
  tag : Option String := none
  body : Option String := none
  created_at : Option String := none
  raw : Option Event := none
deriving DecidableEq, Repr

/-- Errors `extract_event_facts` can raise: the "already processed"
`ValueError` from the dedup check, or a `KeyError` from normalizing a
payload that lacks a required key. -/
inductive ExtractError where
  | alreadyProcessed (delivery_id : String)
  | keyError (key : String)
deriving DecidableEq, Repr

/-- The Python exception message: `f"Delivery ... already processed"` /
`KeyError`. -/
def extractErrMsg : ExtractError → String
  | ExtractError.alreadyProcessed d => "Delivery " ++ d ++ " already processed"
  | ExtractError.keyError k => "KeyError: " ++ k

/-- Embeds `extract_event_facts` (activities.py 174-239): dedup-check against the
ledger, mark seen, then normalize the payload into a typed fact record.
The ledger runs on its own autocommit connection, so the mark survives a
later normalization error; the function returns the new ledger state
together with the result. -/
def extract_event_facts (e : Event) (led : Ledger) :
    Ledger × Except ExtractError Facts :=
  let delivery_id := deliveryIdOf e
  if check_delivery_seen led delivery_id then
    (led, Except.error (ExtractError.alreadyProcessed delivery_id))
  else
    let led' := mark_delivery_seen led delivery_id
    let repo := repoOf e
    let rname := if repo ≠ "" then lastPathComponent repo else e.repo_name.getD "unknown"
    let kind := eventKind e
    if kind = "pull_request" then
      match e.pull_request with
      | none => (led', Except.error (ExtractError.keyError "pull_request"))
      | some pr =>
        (led', Except.ok {
          kind := "PR", repo := repo, repo_name := rname,
          number := some pr.number,
          sha := some pr.head_sha,
          title := some (pr.title.getD ""),
          author := some (pr.user_login.getD "unknown"),
          risk_score := some e.risk_score,
          checks_passed := some e.checks_all_passed,
          labels := some pr.labels,
          changed_paths := some e.changed_files,
          coverage_delta := some e.coverage_delta,
          perf_delta := some e.perf_delta,
          release_window_state := some e.release_window_state,
          policies := some e.policies,
          adrs := some e.adrs,
          summary := some (pyOr e.summary (pyOr pr.body "")).trim })
    else if kind = "release" then
      match e.release with
      | none => (led', Except.error (ExtractError.keyError "release"))
      | some rel =>
        (led', Except.ok {
          kind := "Release", repo := repo, repo_name := rname,
          tag := some rel.tag_name,
          title := some (pyOr rel.name rel.tag_name),
          body := some (rel.body.getD ""),
          author := some (rel.author_login.getD "unknown"),
          created_at := rel.created_at })
    else
      (led', Except.ok { kind := kind, repo := repo, repo_name := rname, raw := some e })

/-! ## `update_graph` and the graph state -/

structure Graph where
  nodes : NodeTable
  edges : EdgeTable
deriving DecidableEq, Repr

def emptyGraph : Graph := ⟨[], []⟩

/-- Runs `_upsert_node` against the full graph state, returning the node id. -/
def upsertG (g : Graph) (nt nk ti : String) (d : AttrMap) : Graph × NodeId :=
  ({ g with nodes := upsert_node g.nodes nt nk ti d }, (nt, nk))

/-- Runs `_link` against the full graph state. -/
def linkG (g : Graph) (s t : NodeId) (r : String) (d : AttrMap) : Graph :=
  { g with edges := link g.edges s t r d }

/-- Symbol info attached by `analyze_repo_state` (module path and stem). -/
structure SymbolInfo where
  path : String
  name : String
deriving DecidableEq, Repr

/-- The result of `analyze_repo_state`: changed paths, naive symbol map,
and the optional path-to-owner mapping (`None` entries model paths with
no matching CODEOWNERS rule). -/
structure Analysis where
  paths : List String := []
  symbols : List SymbolInfo := []
  owners : List (String × Option (String × List String)) := []
deriving DecidableEq, Repr

/-- Embeds `analysis.get("owners", {}).get(p)`. -/
def lookupOwner : List (String × Option (String × List String)) → String →
    Option (String × List String)
  | [], _ => none
  | (q, v) :: rest, p => if q = p then v else lookupOwner rest p

/-- Embeds `normalize_owner_handle` (ownership.py): strip a leading `@`. -/
def normalize_owner_handle (handle : String) : String :=
  match handle.data with
  | '@' :: rest => String.mk rest
  | _ => handle

/-- Embeds `get_owner_type` (ownership.py): team iff the normalized handle has
a slash. -/
def get_owner_type (handle : String) : String :=
  if (normalize_owner_handle handle).data.contains '/' then "team" else "user"

/-- A required dict access `facts[key]`: `KeyError` when absent. -/
def requireField {α : Type} (key : String) : Option α → Except String α
  | some a => Except.ok a
  | none => Except.error ("KeyError: " ++ key)

/-- Serialization of a fact record into the node `data` jsonb column
(`json.dumps(data)` in `_upsert_node`); optional keys appear only when
present.  The raw payload of the fallback branch is serialized opaquely. -/
def optEntry (k : String) (v : Option JVal) : AttrMap :=
  match v with
  | some j => [(k, j)]
  | none => []

def factsData (f : Facts) : AttrMap :=
  [("kind", JVal.str f.kind), ("repo", JVal.str f.repo),
   ("repo_name", JVal.str f.repo_name)]
  ++ optEntry "number" (f.number.map JVal.int)
  ++ optEntry "sha" (f.sha.map JVal.str)
  ++ optEntry "title" (f.title.map JVal.str)
  ++ optEntry "author" (f.author.map JVal.str)
  ++ optEntry "risk_score" (f.risk_score.map JVal.int)
  ++ optEntry "checks_passed" (f.checks_passed.map JVal.bool)
  ++ optEntry "labels" (f.labels.map JVal.strList)
  ++ optEntry "changed_paths" (f.changed_paths.map JVal.strList)
  ++ optEntry "coverage_delta" (f.coverage_delta.map JVal.int)
  ++ optEntry "perf_delta" (f.perf_delta.map JVal.int)
  ++ optEntry "release_window_state" (f.release_window_state.map JVal.str)
  ++ optEntry "policies" (f.policies.map JVal.strList)
  ++ optEntry "adrs" (f.adrs.map JVal.strList)
  ++ optEntry "summary" (f.summary.map JVal.str)
  ++ optEntry "tag" (f.tag.map JVal.str)
  ++ optEntry "body" (f.body.map JVal.str)
  ++ optEntry "created_at" (f.created_at.map JVal.str)
  ++ optEntry "raw" (f.raw.map (fun _ => JVal.null))

/-- The per-changed-path body of the PR branch of `update_graph`: upsert the
File node, link `touches`, and (behind the owners feature flag) upsert
Owner nodes and `owns` edges. -/
def prFileStep (ownersEnabled : Bool) (analysis : Analysis) (pr_id : NodeId)
    (g : Graph) (p : String) : Graph :=
  let gf := upsertG g "File" ("file:" ++ p) p [("path", JVal.str p)]
  let g1 := linkG gf.1 pr_id gf.2 "touches" []
  if ownersEnabled then
    match lookupOwner analysis.owners p with
    | some (pattern, handles) =>
      handles.foldl (fun acc handle =>
        let nh := normalize_owner_handle handle
        let ot := get_owner_type handle
        let go := upsertG acc "Owner" ("owner:" ++ nh) ("@" ++ nh)
          [("handle", JVal.str nh), ("type", JVal.str ot),
           ("original_handle", JVal.str handle)]
        linkG go.1 go.2 gf.2 "owns" [("pattern", JVal.str pattern)]) g1
    | none => g1
  else g1

/-- Embeds `update_graph` (activities.py 302-371): idempotent upsert of the node
and edge set implied by the facts.  Required dict accesses surface as
`KeyError`; kinds other than `"PR"`/`"Release"` fall through untouched. -/
def update_graph (ownersEnabled : Bool) (facts : Facts) (analysis : Analysis)
    (g : Graph) : Except String Graph :=
  if facts.kind = "PR" then do
    let number ← requireField "number" facts.number
    let prKey := "pr:" ++ toString number
    let prTitle := pyOr facts.title ("PR #" ++ toString number)
    let gp := upsertG g "PR" prKey prTitle (factsData facts)
    let pr_id := gp.2
    let gr := upsertG gp.1 "Repo" facts.repo facts.repo_name
      [("full", JVal.str facts.repo)]
    let g1 := linkG gr.1 gr.2 pr_id "has_pr" []
    let changed ← requireField "changed_paths" facts.changed_paths
    let paths := if changed ≠ [] then changed else analysis.paths
    let g2 := paths.foldl (prFileStep ownersEnabled analysis pr_id) g1
    let g3 := analysis.symbols.foldl (fun acc s =>
      let skey := "symbol:" ++ s.path ++ "#" ++ s.name
      let gs := upsertG acc "Symbol" skey s.name
        [("path", JVal.str s.path), ("name", JVal.str s.name)]
      linkG gs.1 pr_id gs.2 "defines" []) g2
    let g4 := (facts.policies.getD []).foldl (fun acc pol =>
      let gpol := upsertG acc "Policy" ("policy:" ++ pol) pol []
      linkG gpol.1 pr_id gpol.2 "governed_by" []) g3
    let g5 := (facts.adrs.getD []).foldl (fun acc adr =>
      let gadr := upsertG acc "ADR" ("adr:" ++ adr) adr []
      linkG gadr.1 pr_id gadr.2 "governed_by" []) g4
    Except.ok g5
  else if facts.kind = "Release" then do
    let tag ← requireField "tag" facts.tag
    let relTitle ← requireField "title" facts.title
    let grel := upsertG g "Release" ("release:" ++ tag) relTitle (factsData facts)
    let gr := upsertG grel.1 "Repo" facts.repo facts.repo_name
      [("full", JVal.str facts.repo)]
    let g1 := linkG gr.1 gr.2 grel.2 "has_release" []
    Except.ok g1
  else
    Except.ok g

/-! ## `CodexWorkflow.run` -/

inductive StepName where
  | extractFacts
  | analyze
  | updateGraph
  | renderDocs
  | publishPortal
deriving DecidableEq, Repr

/-- How a job run ends: a deliberate skip, success, or a propagated step
exception (the except clause of the workflow records failure and
re-raises). -/
inductive WfFailure where
  | extractFailure (err : ExtractError)
  | graphFailure (msg : String)
deriving DecidableEq, Repr

inductive RunOutcome where
  | skipped (reason : String)
  | ok
  | failedRun (f : WfFailure)
deriving DecidableEq, Repr

structure WfResult where
  ledger : Ledger
  graph : Graph
  outcome : RunOutcome
  steps : List StepName
deriving DecidableEq, Repr

/-- Embeds `CodexWorkflow.run` (workflow.py): extract facts, short-circuit to a
`skipped` result when the fact kind is `"unknown"`, analyze only for PR
kinds, then update the graph, render docs and publish.  Any step
exception propagates as a failed run.  `analyzeFn` stands for the
external `analyze_repo_state` activity (it shells out to git);
`renderDocs` and `publishPortal` are external collaborators that do not
touch the graph. -/
def codexWorkflowRun (ownersEnabled : Bool)
    (analyzeFn : String → String → Analysis) (e : Event) (led : Ledger)
    (g : Graph) : WfResult :=
  match extract_event_facts e led with
  | (led', Except.error err) =>
    ⟨led', g, RunOutcome.failedRun (WfFailure.extractFailure err),
      [StepName.extractFacts]⟩
  | (led', Except.ok facts) =>
    if facts.kind = "unknown" then
      ⟨led', g, RunOutcome.skipped "unknown_event", [StepName.extractFacts]⟩
    else
      let analysis := if facts.kind = "PR" then
          analyzeFn facts.repo (facts.sha.getD "") else {}
      let steps := [StepName.extractFacts]
        ++ (if facts.kind = "PR" then [StepName.analyze] else [])
      match update_graph ownersEnabled facts analysis g with
      | Except.error msg =>
        ⟨led', g, RunOutcome.failedRun (WfFailure.graphFailure msg),
          steps ++ [StepName.updateGraph]⟩
      | Except.ok g' =>
        ⟨led', g', RunOutcome.ok,
          steps ++ [StepName.updateGraph, StepName.renderDocs,
            StepName.publishPortal]⟩

/-! ## Ingestion Consumer (`nats_runner.py`) -/

/-- Workflow-id fallback chain after a falsy `delivery_id`:
the pull_request id when present, else a hash of the payload (`None` and
`0` are falsy; the trailing or-operand, the hash, is returned whatever its
value).  The Python `hash` is runtime-salted, so it enters as a parameter. -/
def wfIdFallback (hashFn : Event → Int) (evt : Event) : String :=
  match evt.pull_request.bind PRPayload.id with
  | some i => if i ≠ 0 then toString i else toString (hashFn evt)
  | none => toString (hashFn evt)

/-- Embeds the wf_id computation: the string codex- followed by the
delivery_id-or-fallback chain. -/
def wfId (hashFn : Event → Int) (evt : Event) : String :=
  "codex-" ++
    (match evt.delivery_id with
     | some d => if d ≠ "" then d else wfIdFallback hashFn evt
     | none => wfIdFallback hashFn evt)

def charListStartsWith : List Char → List Char → Bool
  | [], _ => true
  | _ :: _, [] => false
  | a :: as, b :: bs => a == b && charListStartsWith as bs

def charListContains (pat : List Char) : List Char → Bool
  | [] => charListStartsWith pat []
  | c :: cs => charListStartsWith pat (c :: cs) || charListContains pat cs

/-- The Python `pat in s` substring test. -/
def strContainsSub (s pat : String) : Bool :=
  charListContains pat.data s.data

/-- The Python `str.lower()` (ASCII-adequate for the error messages used). -/
def strToLower (s : String) : String :=
  String.mk (s.data.map Char.toLower)

/-- The duplicate-job test in the except clause of the handler:
`"already exists" in str(e).lower() or
 "workflow execution already started" in str(e).lower()`. -/
def isAlreadyExistsErr (msg : String) : Bool :=
  strContainsSub (strToLower msg) "already exists" ||
  strContainsSub (strToLower msg) "workflow execution already started"

inductive AckAction where
  | ack
  | nak
deriving DecidableEq, Repr

/-- The message handler of `nats_runner.py`: nak on a payload that fails
to parse as JSON (`payload = none`); otherwise start a workflow under the
derived `wf_id` and ack on success, ack when the start failure is the
duplicate-workflow error, nak on any other failure.  `startFn` stands for
the external workflow-start call, keyed by the workflow id. -/
def handler (hashFn : Event → Int) (startFn : String → Except String Unit)
    (payload : Option Event) : AckAction :=
  match payload with
  | none => AckAction.nak
  | some evt =>
    match startFn (wfId hashFn evt) with
    | Except.ok _ => AckAction.ack
    | Except.error msg =>
      if isAlreadyExistsErr msg then AckAction.ack else AckAction.nak

/-! ## Fault-Injection Harness (`tests/fault_injection.py`) -/

/-- The `FaultInjector` instance state: which delivery ids have already
been faulted. -/
structure FaultInjector where
  faulted_delivery_ids : List String := []
deriving DecidableEq, Repr

/-- Embeds `FaultInjector.should_inject_fault`: no target configured (env unset
or empty) never faults; a non-target id never faults; a target id faults
exactly when not yet recorded, and is then recorded.  `fault_target` is
the `FAULT_ONCE_DELIVERY_ID` environment value. -/
def should_inject_fault (fault_target : Option String) (inj : FaultInjector)
    (delivery_id : String) : Bool × FaultInjector :=
  match fault_target with
  | none => (false, inj)
  | some t =>
    if t = "" then (false, inj)
    else if delivery_id ≠ t then (false, inj)
    else if inj.faulted_delivery_ids.contains delivery_id then (false, inj)
    else (true, { inj with
      faulted_delivery_ids := delivery_id :: inj.faulted_delivery_ids })

/-- Embeds `with_fault_injection` around one processing attempt: raise
`FaultInjectionError` when the injector fires, else run the wrapped body. -/
def with_fault_injection (fault_target : Option String) (inj : FaultInjector)
    (delivery_id : String) (body : Except String Unit) :
    Except String Unit × FaultInjector :=
  let r := should_inject_fault fault_target inj delivery_id
  if r.1 then
    (Except.error ("Simulated failure for delivery_id: " ++ delivery_id), r.2)
  else (body, r.2)

/-- A sequence of wrapped processing attempts, one per delivery id. -/
def runAttempts (fault_target : Option String)
    (body : String → Except String Unit) :
    List String → FaultInjector → List (Except String Unit) × FaultInjector
  | [], inj => ([], inj)
  | d :: ds, inj =>
    let r := with_fault_injection fault_target inj d (body d)
    let rest := runAttempts fault_target body ds r.2
    (r.1 :: rest.1, rest.2)

/-- The expected fault pattern from the spec: `true` exactly at the first
occurrence of the target, `false` everywhere else. -/
def firstHitPattern (t : String) : List String → List Bool
  | [] => []
  | d :: ds =>
    if d = t then true :: ds.map (fun _ => false)
    else false :: firstHitPattern t ds

/-! ## Maintenance Job (`cleanup_database`) -/

/-- The structured result dict returned by `cleanup_database`. -/
structure CleanupResult where
  status : String
  error : Option String := none
  cleaned_deliveries : Option Bool := none
  cleaned_temp_branches : Option Bool := none
  retention_days : Option Nat := none
deriving DecidableEq, Repr

/-- Embeds `cleanup_database` (activities.py 636-654): run the two cleanup
statements (whose database outcomes enter as parameters), catch any
exception into an error record.  Totality of this function is the
"never propagated" guarantee. -/
def cleanup_database (deliveriesStep tempBranchesStep : Except String Unit) :
    CleanupResult :=
  match deliveriesStep with
  | Except.error e => { status := "error", error := some e }
  | Except.ok _ =>
    match tempBranchesStep with
    | Except.error e => { status := "error", error := some e }
    | Except.ok _ =>
      { status := "success", cleaned_deliveries := some true,
        cleaned_temp_branches := some true, retention_days := some 90 }

def nodeC2 : GNode :=
  ⟨"PR", "pr:1", "old title", [("a", JVal.str "1"), ("b", JVal.str "2")]⟩

def tableC2 : NodeTable := [nodeC2]

def edgeC7 : GEdge :=
  ⟨("PR", "pr:1"), ("File", "file:a.py"), "touches", [("pattern", JVal.str "p")]⟩

def edgesC7 : EdgeTable := [edgeC7]

/-! ## Concrete inputs used by counterexamples and witnesses -/

/-- Outcome discriminator used to state the skip claims. -/
def RunOutcome.isSkipped : RunOutcome → Bool
  | RunOutcome.skipped _ => true
  | _ => false

/-- A PR event whose delivery id `d1` is already in the ledger. -/
def evC1 : Event :=
  { delivery_id := some "d1", event := some "pull_request",
    pull_request := some { number := 7, head_sha := "abc" } }

/-- An event of the unrecognized kind `issues`. -/
def evC6 : Event := { delivery_id := some "d6", event := some "issues" }

/-- An event with no `event`/`type` key: its kind resolves to `unknown`. -/
def evUnknownKind : Event := { delivery_id := some "w6" }

/-- A `pull_request`-kind event lacking the `pull_request` object:
normalization raises `KeyError` after the ledger mark. -/
def evC8 : Event := { delivery_id := some "d8", event := some "pull_request" }

/-- An event carrying only a delivery id. -/
def evC5 : Event := { delivery_id := some "d1" }

/-- An empty payload (every key absent / defaulted). -/
def evC4 : Event := {}

/-! ## Theorems -/

theorem lookupAttr_append (xs ys : AttrMap) (k : String) :
    lookupAttr (xs ++ ys) k = (lookupAttr xs k).orElse (fun _ => lookupAttr ys k) := by
  induction xs with
  | nil => rfl
  | cons p rest ih =>
    obtain ⟨k', v⟩ := p
    by_cases h : k' = k
    · simp [lookupAttr, h, List.cons_append, Option.orElse]
    · simpa [lookupAttr, h, List.cons_append] using ih

theorem lookupAttr_filter_of_none (a b : AttrMap) (k : String)
    (h : lookupAttr b k = none) :
    lookupAttr (a.filter (fun p => (lookupAttr b p.1).isNone)) k = lookupAttr a k := by
  induction a with
  | nil => rfl
  | cons p rest ih =>
    obtain ⟨k', v⟩ := p
    by_cases hk : k' = k
    · subst hk
      simp [List.filter_cons, h, lookupAttr]
    · by_cases hb : (lookupAttr b k').isNone
      · simp [List.filter_cons, hb, lookupAttr, hk, ih]
      · simp [List.filter_cons, hb, lookupAttr, hk, ih]

/-- Lookup in the jsonb merge `a || b`: `b` wins, `a` fills the rest. -/
theorem lookupAttr_jsonbConcat (a b : AttrMap) (k : String) :
    lookupAttr (jsonbConcat a b) k = (lookupAttr b k).orElse (fun _ => lookupAttr a k) := by
  unfold jsonbConcat
  rw [lookupAttr_append]
  cases h : lookupAttr b k with
  | none => simp [Option.orElse, lookupAttr_filter_of_none a b k h]
  | some v => simp [Option.orElse]

theorem check_mark_self (led : Ledger) (d : String) :
    check_delivery_seen (mark_delivery_seen led d) d = true := by
  unfold mark_delivery_seen
  by_cases h : check_delivery_seen led d
  · simp [h]
  · simp [h, check_delivery_seen]

theorem mark_of_seen (led : Ledger) (d : String)
    (h : check_delivery_seen led d = true) : mark_delivery_seen led d = led := by
  simp [mark_delivery_seen, h]

theorem check_mark_mono (led : Ledger) (d d' : String)
    (h : check_delivery_seen led d = true) :
    check_delivery_seen (mark_delivery_seen led d') d = true := by
  unfold mark_delivery_seen
  by_cases h' : check_delivery_seen led d'
  · simp [h', h]
  · simp only [h', Bool.false_eq_true, if_false, check_delivery_seen]
    by_cases hd : d' = d <;> simp [hd, h]

theorem runLedgerOps_mono (ops : List LedgerOp) (led : Ledger) (d : String)
    (h : check_delivery_seen led d = true) :
    check_delivery_seen (runLedgerOps ops led) d = true := by
  induction ops generalizing led with
  | nil => exact h
  | cons op rest ih =>
    cases op with
    | mark d' => exact ih _ (check_mark_mono led d d' h)
    | query _ => exact ih _ h

theorem findNode_upsert (t : NodeTable) (nt nk ti : String) (d : AttrMap) :
    findNode (upsert_node t nt nk ti d) nt nk =
      some ⟨nt, nk, ti, jsonbConcat (oldDataOf t nt nk) d⟩ := by
  induction t with
  | nil => simp [upsert_node, findNode, oldDataOf, jsonbConcat, lookupAttr]
  | cons n rest ih =>
    by_cases h : n.ntype = nt ∧ n.nkey = nk
    · simp [upsert_node, h, findNode, oldDataOf]
    · simp [upsert_node, h, findNode, oldDataOf] at ih ⊢
      exact ih

theorem countKey_upsert (t : NodeTable) (nt nk ti : String) (d : AttrMap) :
    countKey (upsert_node t nt nk ti d) nt nk = max (countKey t nt nk) 1 := by
  induction t with
  | nil => simp [upsert_node, countKey]
  | cons n rest ih =>
    by_cases h : n.ntype = nt ∧ n.nkey = nk
    · simp [upsert_node, h, countKey, List.filter_cons]
    · simp only [upsert_node, h, if_false, countKey, List.filter_cons] at ih ⊢
      simp only [decide_eq_true_eq, h, if_false] at ih ⊢
      simpa using ih

theorem link_of_found (es : EdgeTable) (s t : NodeId) (r : String)
    (d : AttrMap) (e : GEdge) (h : findEdge es s t r = some e) :
    link es s t r d = es := by
  induction es with
  | nil => simp [findEdge] at h
  | cons e0 rest ih =>
    by_cases h0 : e0.src = s ∧ e0.dst = t ∧ e0.rel = r
    · simp [link, h0]
    · simp only [findEdge, h0, if_false] at h
      simp [link, h0, ih h]

theorem countEdgeKey_link (es : EdgeTable) (s t : NodeId) (r : String) (d : AttrMap) :
    countEdgeKey (link es s t r d) s t r = max (countEdgeKey es s t r) 1 := by
  induction es with
  | nil => simp [link, countEdgeKey]
  | cons e0 rest ih =>
    by_cases h0 : e0.src = s ∧ e0.dst = t ∧ e0.rel = r
    · simp [link, h0, countEdgeKey, List.filter_cons]
    · simp only [link, h0, if_false, countEdgeKey, List.filter_cons] at ih ⊢
      simp only [decide_eq_true_eq, h0, if_false] at ih ⊢
      simpa using ih

theorem findEdge_link_absent (es : EdgeTable) (s t : NodeId) (r : String) (d : AttrMap)
    (h : findEdge es s t r = none) :
    findEdge (link es s t r d) s t r = some ⟨s, t, r, d⟩ := by
  induction es with
  | nil => simp [link, findEdge]
  | cons e0 rest ih =>
    by_cases h0 : e0.src = s ∧ e0.dst = t ∧ e0.rel = r
    · simp [findEdge, h0] at h
    · simp only [findEdge, h0, if_false] at h
      simp [link, findEdge, h0, ih h]

theorem runLedgerOps_mark_mem (ops : List LedgerOp) (d : String)
    (h : LedgerOp.mark d ∈ ops) :
    ∀ led, check_delivery_seen (runLedgerOps ops led) d = true := by
  induction ops with
  | nil => cases h
  | cons op rest ih =>
    intro led
    rcases List.mem_cons.mp h with heq | hmem
    · rw [← heq]
      exact runLedgerOps_mono rest _ d (check_mark_self led d)
    · cases op with
      | mark d' => exact ih hmem (mark_delivery_seen led d')
      | query _ => exact ih hmem led

/-- C2: upserting a node that already exists replaces its title with the
new title and shallow-merges the attribute maps (union of old and new,
new keys winning on conflict); upserting twice never yields two rows for
the same `(ntype, nkey)` key. -/
theorem upsert_node_spec (t : NodeTable) (nt nk ti ti' : String)
    (d d' : AttrMap) (n : GNode) (hfind : findNode t nt nk = some n)
    (hc : countKey t nt nk ≤ 1) :
    findNode (upsert_node t nt nk ti' d') nt nk
      = some ⟨nt, nk, ti', jsonbConcat n.data d'⟩ ∧
    (∀ k, lookupAttr (jsonbConcat n.data d') k
      = (lookupAttr d' k).orElse (fun _ => lookupAttr n.data k)) ∧
    countKey (upsert_node (upsert_node t nt nk ti d) nt nk ti' d') nt nk = 1 := by
  refine ⟨?_, fun k => lookupAttr_jsonbConcat n.data d' k, ?_⟩
  · rw [findNode_upsert]
    simp [oldDataOf, hfind]
  · rw [countKey_upsert, countKey_upsert]
    omega

theorem upsert_node_spec_witness :
    findNode (upsert_node tableC2 "PR" "pr:1" "new title" [("b", JVal.str "3")])
        "PR" "pr:1"
      = some ⟨"PR", "pr:1", "new title", jsonbConcat nodeC2.data [("b", JVal.str "3")]⟩ ∧
    countKey (upsert_node (upsert_node tableC2 "PR" "pr:1" "mid" [("c", JVal.str "4")])
        "PR" "pr:1" "new title" [("b", JVal.str "3")]) "PR" "pr:1" = 1 :=
  ⟨(upsert_node_spec tableC2 "PR" "pr:1" "mid" "new title" [("c", JVal.str "4")]
      [("b", JVal.str "3")] nodeC2 (by decide) (by decide)).1,
   (upsert_node_spec tableC2 "PR" "pr:1" "mid" "new title" [("c", JVal.str "4")]
      [("b", JVal.str "3")] nodeC2 (by decide) (by decide)).2.2⟩

/-- C3: `mark_delivery_seen` never errors on repeats (it is a total
insert-or-ignore, and re-marking a seen id is a no-op), and after any
call sequence containing `mark d`, `check_delivery_seen d` is true. -/
theorem ledger_idempotent (ops : List LedgerOp) (led : Ledger) (d : String)
    (h : LedgerOp.mark d ∈ ops) :
    check_delivery_seen (runLedgerOps ops led) d = true ∧
    mark_delivery_seen (runLedgerOps ops led) d = runLedgerOps ops led :=
  have h1 := runLedgerOps_mark_mem ops d h led
  ⟨h1, mark_of_seen _ d h1⟩

theorem ledger_idempotent_witness :
    check_delivery_seen
      (runLedgerOps [LedgerOp.mark "x", LedgerOp.query "y", LedgerOp.mark "x"] ["y"])
      "x" = true ∧
    mark_delivery_seen
      (runLedgerOps [LedgerOp.mark "x", LedgerOp.query "y", LedgerOp.mark "x"] ["y"])
      "x"
    = runLedgerOps [LedgerOp.mark "x", LedgerOp.query "y", LedgerOp.mark "x"] ["y"] :=
  ledger_idempotent [LedgerOp.mark "x", LedgerOp.query "y", LedgerOp.mark "x"]
    ["y"] "x" (by decide)

/-- C7: per `(src, dst, rel)` key exactly one edge row exists after
asserting it (in particular after re-asserting it), and re-asserting an
existing edge with different attributes leaves the table unchanged. -/
theorem link_spec (es : EdgeTable) (s t : NodeId) (r : String)
    (d d' : AttrMap) (hc : countEdgeKey es s t r ≤ 1) :
    countEdgeKey (link (link es s t r d) s t r d') s t r = 1 ∧
    ∀ e, findEdge es s t r = some e → link es s t r d' = es := by
  constructor
  · rw [countEdgeKey_link, countEdgeKey_link]
    omega
  · intro e he
    exact link_of_found es s t r d' e he

theorem link_spec_witness :
    countEdgeKey
      (link (link edgesC7 ("PR", "pr:1") ("File", "file:a.py") "touches" [])
        ("PR", "pr:1") ("File", "file:a.py") "touches" [("x", JVal.str "1")])
      ("PR", "pr:1") ("File", "file:a.py") "touches" = 1 ∧
    link edgesC7 ("PR", "pr:1") ("File", "file:a.py") "touches"
      [("x", JVal.str "1")] = edgesC7 :=
  ⟨(link_spec edgesC7 ("PR", "pr:1") ("File", "file:a.py") "touches" []
      [("x", JVal.str "1")] (by decide)).1,
   (link_spec edgesC7 ("PR", "pr:1") ("File", "file:a.py") "touches" []
      [("x", JVal.str "1")] (by decide)).2 edgeC7 (by decide)⟩

theorem extract_of_seen (e : Event) (led : Ledger)
    (h : check_delivery_seen led (deliveryIdOf e) = true) :
    extract_event_facts e led
      = (led, Except.error (ExtractError.alreadyProcessed (deliveryIdOf e))) := by
  unfold extract_event_facts
  simp [h]

theorem extract_fst (e : Event) (led : Ledger)
    (h : check_delivery_seen led (deliveryIdOf e) = false) :
    (extract_event_facts e led).1 = mark_delivery_seen led (deliveryIdOf e) := by
  unfold extract_event_facts
  simp only [h, Bool.false_eq_true, if_false]
  split
  · cases e.pull_request <;> rfl
  · split
    · cases e.release <;> rfl
    · rfl

theorem extract_fallback (e : Event) (led : Ledger)
    (h : check_delivery_seen led (deliveryIdOf e) = false)
    (h1 : eventKind e ≠ "pull_request") (h2 : eventKind e ≠ "release") :
    extract_event_facts e led
      = (mark_delivery_seen led (deliveryIdOf e),
         Except.ok { kind := eventKind e,
                     repo := repoOf e,
                     repo_name := if repoOf e ≠ "" then lastPathComponent (repoOf e)
                                  else e.repo_name.getD "unknown",
                     raw := some e }) := by
  unfold extract_event_facts
  simp [h, h1, h2]

/-- C8: the ledger mark happens before payload normalization and is not
rolled back by a normalization failure: after a first call on an unseen
delivery id, the id is marked seen whatever the result; when the event
kind is `pull_request` but the `pull_request` object is absent the call
returns the `KeyError`; and every subsequent call with the same delivery
id fails with the already-processed error (leaving the ledger as is)
instead of retrying first-processing. -/
theorem extract_marks_seen_first (e e2 : Event) (led : Ledger)
    (h : check_delivery_seen led (deliveryIdOf e) = false)
    (h2 : deliveryIdOf e2 = deliveryIdOf e) :
    check_delivery_seen (extract_event_facts e led).1 (deliveryIdOf e) = true ∧
    (eventKind e = "pull_request" → e.pull_request = none →
      (extract_event_facts e led).2
        = Except.error (ExtractError.keyError "pull_request")) ∧
    (extract_event_facts e2 (extract_event_facts e led).1).2
      = Except.error (ExtractError.alreadyProcessed (deliveryIdOf e)) ∧
    (extract_event_facts e2 (extract_event_facts e led).1).1
      = (extract_event_facts e led).1 := by
  have hfst := extract_fst e led h
  have hseen : check_delivery_seen (extract_event_facts e led).1
      (deliveryIdOf e) = true := by
    rw [hfst]
    exact check_mark_self led (deliveryIdOf e)
  have hseen2 : check_delivery_seen (extract_event_facts e led).1
      (deliveryIdOf e2) = true := by
    rw [h2]
    exact hseen
  have hsecond := extract_of_seen e2 (extract_event_facts e led).1 hseen2
  refine ⟨hseen, ?_, ?_, ?_⟩
  · intro hk hpr
    unfold extract_event_facts
    simp [h, hk, hpr]
  · rw [hsecond, h2]
  · rw [hsecond]

theorem extract_marks_seen_first_witness :
    (extract_event_facts evC8 []).2
      = Except.error (ExtractError.keyError "pull_request") ∧
    (extract_event_facts evC8 (extract_event_facts evC8 []).1).2
      = Except.error (ExtractError.alreadyProcessed (deliveryIdOf evC8)) :=
  ⟨(extract_marks_seen_first evC8 evC8 [] (by decide) rfl).2.1 rfl rfl,
   (extract_marks_seen_first evC8 evC8 [] (by decide) rfl).2.2.1⟩

/-- C1 counterexample: for `evC1`, whose delivery id `d1` is already in
the ledger, the first step fails with the distinguishable
already-processed error, but the job does not terminate with a "skipped"
outcome — the error propagates as a failed run. -/
theorem c1_counterexample :
    (codexWorkflowRun false (fun _ _ => {}) evC1 ["d1"] emptyGraph).outcome
      = RunOutcome.failedRun (WfFailure.extractFailure
          (ExtractError.alreadyProcessed "d1")) ∧
    ((codexWorkflowRun false (fun _ _ => {}) evC1 ["d1"]
        emptyGraph).outcome).isSkipped = false := by
  decide

/-- C1 amended: for every event whose delivery id is already recorded,
`extract_event_facts` fails fast with the distinguishable
already-processed error, but the orchestration layer does not treat it
as terminal-skip: the workflow propagates it as a failed run (no
"skipped" outcome), no later pipeline step runs, and neither the graph
nor the ledger changes. -/
theorem c1_amended (ownersEnabled : Bool)
    (analyzeFn : String → String → Analysis) (e : Event) (led : Ledger)
    (g : Graph) (h : check_delivery_seen led (deliveryIdOf e) = true) :
    (codexWorkflowRun ownersEnabled analyzeFn e led g).outcome
      = RunOutcome.failedRun (WfFailure.extractFailure
          (ExtractError.alreadyProcessed (deliveryIdOf e))) ∧
    (codexWorkflowRun ownersEnabled analyzeFn e led g).graph = g ∧
    (codexWorkflowRun ownersEnabled analyzeFn e led g).ledger = led ∧
    (codexWorkflowRun ownersEnabled analyzeFn e led g).steps
      = [StepName.extractFacts] := by
  have hx := extract_of_seen e led h
  unfold codexWorkflowRun
  rw [hx]
  exact ⟨rfl, rfl, rfl, rfl⟩

theorem c1_amended_witness :
    (codexWorkflowRun false (fun _ _ => {}) evC1 ["d1"] emptyGraph).outcome
      = RunOutcome.failedRun (WfFailure.extractFailure
          (ExtractError.alreadyProcessed (deliveryIdOf evC1))) :=
  (c1_amended false (fun _ _ => {}) evC1 ["d1"] emptyGraph (by decide)).1

/-- C6 counterexample: the `issues` event `evC6` has an unrecognized kind
(neither pull_request nor release), yet the job completes `ok` and the
later pipeline steps all run, instead of terminating "skipped". -/
theorem c6_counterexample :
    eventKind evC6 ≠ "pull_request" ∧ eventKind evC6 ≠ "release" ∧
    (codexWorkflowRun false (fun _ _ => {}) evC6 [] emptyGraph).outcome
      = RunOutcome.ok ∧
    ((codexWorkflowRun false (fun _ _ => {}) evC6 []
        emptyGraph).outcome).isSkipped = false ∧
    (codexWorkflowRun false (fun _ _ => {}) evC6 [] emptyGraph).steps
      = [StepName.extractFacts, StepName.updateGraph, StepName.renderDocs,
         StepName.publishPortal] := by
  decide

/-- C6 amended: only an event whose kind resolves to the literal string
"unknown" terminates "skipped" (with no graph mutation and no later
step); an event of any other unrecognized kind — none of
"pull_request", "release", "unknown", and not literally "PR"/"Release" —
completes `ok` with all later steps running, though still with no node
or edge inserted or updated. -/
theorem c6_amended (ownersEnabled : Bool)
    (analyzeFn : String → String → Analysis) (e : Event) (led : Ledger)
    (g : Graph) (h : check_delivery_seen led (deliveryIdOf e) = false) :
    (eventKind e = "unknown" →
      (codexWorkflowRun ownersEnabled analyzeFn e led g).outcome
        = RunOutcome.skipped "unknown_event" ∧
      (codexWorkflowRun ownersEnabled analyzeFn e led g).graph = g ∧
      (codexWorkflowRun ownersEnabled analyzeFn e led g).steps
        = [StepName.extractFacts]) ∧
    (eventKind e ≠ "pull_request" → eventKind e ≠ "release" →
     eventKind e ≠ "unknown" → eventKind e ≠ "PR" → eventKind e ≠ "Release" →
      (codexWorkflowRun ownersEnabled analyzeFn e led g).outcome
        = RunOutcome.ok ∧
      (codexWorkflowRun ownersEnabled analyzeFn e led g).graph = g ∧
      (codexWorkflowRun ownersEnabled analyzeFn e led g).steps
        = [StepName.extractFacts, StepName.updateGraph, StepName.renderDocs,
           StepName.publishPortal]) := by
  constructor
  · intro hk
    have h1 : eventKind e ≠ "pull_request" := by rw [hk]; decide
    have h2 : eventKind e ≠ "release" := by rw [hk]; decide
    have hx := extract_fallback e led h h1 h2
    unfold codexWorkflowRun
    rw [hx]
    simp [hk]
  · intro h1 h2 h3 h4 h5
    have hx := extract_fallback e led h h1 h2
    have hup : ∀ g' : Graph,
        update_graph ownersEnabled
          { kind := eventKind e, repo := repoOf e,
            repo_name := if repoOf e = "" then e.repo_name.getD "unknown"
                         else lastPathComponent (repoOf e),
            raw := some e } {} g' = Except.ok g' := by
      intro g'
      unfold update_graph
      simp [h4, h5]
    unfold codexWorkflowRun
    rw [hx]
    simp [h3, h4, hup]

theorem c6_amended_witness :
    (codexWorkflowRun false (fun _ _ => {}) evUnknownKind [] emptyGraph).outcome
      = RunOutcome.skipped "unknown_event" :=
  ((c6_amended false (fun _ _ => {}) evUnknownKind [] emptyGraph
      (by decide)).1 rfl).1

/-- C4: the consumer naks a payload that fails to parse as JSON, acks on
a successful job start, treats a start failure carrying the
duplicate-workflow ("already exists") error as success and acks, and
naks on any other start failure so the broker redelivers. -/
theorem handler_ack_spec (hashFn : Event → Int)
    (startFn : String → Except String Unit) (evt : Event) (msg : String) :
    handler hashFn startFn none = AckAction.nak ∧
    (startFn (wfId hashFn evt) = Except.ok () →
      handler hashFn startFn (some evt) = AckAction.ack) ∧
    (startFn (wfId hashFn evt) = Except.error msg →
      isAlreadyExistsErr msg = true →
      handler hashFn startFn (some evt) = AckAction.ack) ∧
    (startFn (wfId hashFn evt) = Except.error msg →
      isAlreadyExistsErr msg = false →
      handler hashFn startFn (some evt) = AckAction.nak) := by
  refine ⟨rfl, ?_, ?_, ?_⟩
  · intro hs
    simp only [handler]
    rw [hs]
  · intro hs he
    simp only [handler]
    rw [hs]
    simp [he]
  · intro hs he
    simp only [handler]
    rw [hs]
    simp [he]

theorem handler_ack_spec_witness :
    handler (fun _ => 0)
      (fun _ => Except.error "Workflow execution already started")
      (some evC4) = AckAction.ack ∧
    handler (fun _ => 0) (fun _ => Except.error "connection refused")
      (some evC4) = AckAction.nak ∧
    handler (fun _ => 0) (fun _ => Except.ok ()) none = AckAction.nak :=
  ⟨(handler_ack_spec (fun _ => 0)
      (fun _ => Except.error "Workflow execution already started") evC4
      "Workflow execution already started").2.2.1 rfl (by decide),
   (handler_ack_spec (fun _ => 0) (fun _ => Except.error "connection refused")
      evC4 "connection refused").2.2.2 rfl (by decide),
   (handler_ack_spec (fun _ => 0) (fun _ => Except.ok ()) evC4 "").1⟩

/-- C5 counterexample: for `evC5` with delivery id `d1` the computed job
key is `codex-d1`, not `job-d1`: the prefix the code uses is `codex-`,
not `job-`. -/
theorem c5_counterexample :
    wfId (fun _ => 0) evC5 = "codex-d1" ∧
    wfId (fun _ => 0) evC5 ≠ "job-d1" := by
  decide

/-- C5 amended: the job key uses the prefix `codex-`: with a non-empty
delivery_id the key is `codex-` ++ delivery_id; with no (or empty)
delivery_id it falls back first to the pull_request id of the payload (when
present and non-zero) and only then to a hash of the payload. -/
theorem c5_amended (hashFn : Event → Int) (evt : Event) (d : String) (i : Int) :
    (evt.delivery_id = some d → d ≠ "" → wfId hashFn evt = "codex-" ++ d) ∧
    ((evt.delivery_id = none ∨ evt.delivery_id = some "") →
      evt.pull_request.bind PRPayload.id = some i → i ≠ 0 →
      wfId hashFn evt = "codex-" ++ toString i) ∧
    ((evt.delivery_id = none ∨ evt.delivery_id = some "") →
      evt.pull_request.bind PRPayload.id = none →
      wfId hashFn evt = "codex-" ++ toString (hashFn evt)) := by
  refine ⟨?_, ?_, ?_⟩
  · intro hd hne
    unfold wfId
    rw [hd]
    simp [hne]
  · intro hd hpr hi
    unfold wfId wfIdFallback
    rcases hd with hd | hd <;> rw [hd] <;> simp [hpr, hi]
  · intro hd hpr
    unfold wfId wfIdFallback
    rcases hd with hd | hd <;> rw [hd] <;> simp [hpr]

theorem c5_amended_witness :
    wfId (fun _ => 0) evC5 = "codex-" ++ "d1" :=
  (c5_amended (fun _ => 0) evC5 "d1" 1).1 rfl (by decide)

theorem should_inject_pass (t : String) (inj : FaultInjector) (d : String)
    (h : d ≠ t ∨ inj.faulted_delivery_ids.contains d = true) :
    should_inject_fault (some t) inj d = (false, inj) := by
  unfold should_inject_fault
  by_cases h0 : t = ""
  · simp [h0]
  · rcases h with h | h
    · simp [h0, h]
    · by_cases hd : d = t
      · subst hd
        have hm : d ∈ inj.faulted_delivery_ids := by simpa using h
        simp [h0, hm]
      · simp [h0, hd]

theorem runAttempts_after (t : String) (body : String → Except String Unit)
    (ds : List String) (inj : FaultInjector)
    (h : inj.faulted_delivery_ids.contains t = true) :
    (runAttempts (some t) body ds inj).1 = ds.map body := by
  induction ds generalizing inj with
  | nil => rfl
  | cons d rest ih =>
    have hpass : should_inject_fault (some t) inj d = (false, inj) := by
      by_cases hd : d = t
      · exact should_inject_pass t inj d (Or.inr (by rw [hd]; exact h))
      · exact should_inject_pass t inj d (Or.inl hd)
    unfold runAttempts with_fault_injection
    rw [hpass]
    simp [ih inj h]

theorem zipWith_false_replicate (body : String → Except String Unit)
    (rest : List String) :
    List.zipWith (fun d fire => if fire
        then Except.error ("Simulated failure for delivery_id: " ++ d)
        else body d) rest (List.replicate rest.length false)
      = rest.map body := by
  induction rest with
  | nil => rfl
  | cons d rs ih => exact congrArg (List.cons (body d)) ih

/-- C9: with the fault-injection environment variable naming a (non-empty)
target delivery id, exactly the first processing attempt for that exact
id fails with the injected fault, and every later attempt for the same
id, as well as every attempt for any other id, runs the wrapped body
unfaulted. -/
theorem fault_injection_once (t : String) (ht : t ≠ "") (ds : List String)
    (body : String → Except String Unit) :
    (runAttempts (some t) body ds ⟨[]⟩).1
      = List.zipWith (fun d fire => if fire
          then Except.error ("Simulated failure for delivery_id: " ++ d)
          else body d) ds (firstHitPattern t ds) := by
  induction ds with
  | nil => rfl
  | cons d rest ih =>
    by_cases hd : d = t
    · subst hd
      have hfire : should_inject_fault (some d) ⟨[]⟩ d
          = (true, ⟨[d]⟩) := by
        unfold should_inject_fault
        simp [ht]
      unfold runAttempts with_fault_injection
      rw [hfire]
      have hrest := runAttempts_after d body rest ⟨[d]⟩ (by simp)
      simp [firstHitPattern, hrest, zipWith_false_replicate]
    · have hpass := should_inject_pass t ⟨[]⟩ d (Or.inl hd)
      unfold runAttempts with_fault_injection
      rw [hpass]
      simp [firstHitPattern, hd, ih]

theorem fault_injection_once_witness :
    (runAttempts (some "X") (fun _ => Except.ok ())
        ["a", "X", "X", "b"] ⟨[]⟩).1
      = List.zipWith (fun d fire => if fire
          then Except.error ("Simulated failure for delivery_id: " ++ d)
          else Except.ok ()) ["a", "X", "X", "b"]
          (firstHitPattern "X" ["a", "X", "X", "b"]) :=
  fault_injection_once "X" (by decide) ["a", "X", "X", "b"]
    (fun _ => Except.ok ())

/-- C10: `cleanup_database` turns every outcome of its cleanup steps into
a structured status record and never propagates an exception (it is a
total function into `CleanupResult`): a step error is reported as a
status/error record, and success reports what was cleaned and the 90-day
retention window. -/
theorem cleanup_database_spec (r1 r2 : Except String Unit) :
    ((cleanup_database r1 r2).status = "success" ∨
      ((cleanup_database r1 r2).status = "error" ∧
        ((cleanup_database r1 r2).error).isSome = true)) ∧
    (r1 = Except.ok () → r2 = Except.ok () →
      cleanup_database r1 r2
        = { status := "success", cleaned_deliveries := some true,
            cleaned_temp_branches := some true, retention_days := some 90 }) ∧
    (∀ msg, (r1 = Except.error msg ∨
        (r1 = Except.ok () ∧ r2 = Except.error msg)) →
      (cleanup_database r1 r2).status = "error" ∧
      (cleanup_database r1 r2).error = some msg) := by
  refine ⟨?_, ?_, ?_⟩
  · cases r1 with
    | error e => exact Or.inr ⟨rfl, rfl⟩
    | ok u =>
      cases r2 with
      | error e => exact Or.inr ⟨rfl, rfl⟩
      | ok v => exact Or.inl rfl
  · intro h1 h2
    rw [h1, h2]
    rfl
  · intro msg hm
    rcases hm with hm | ⟨h1, h2⟩
    · rw [hm]
      exact ⟨rfl, rfl⟩
    · rw [h1, h2]
      exact ⟨rfl, rfl⟩

theorem cleanup_database_spec_witness :
    (cleanup_database (Except.error "boom") (Except.ok ())).status = "error" ∧
    (cleanup_database (Except.error "boom") (Except.ok ())).error
      = some "boom" ∧
    cleanup_database (Except.ok ()) (Except.ok ())
      = { status := "success", cleaned_deliveries := some true,
          cleaned_temp_branches := some true, retention_days := some 90 } :=
  ⟨((cleanup_database_spec (Except.error "boom") (Except.ok ())).2.2 "boom"
      (Or.inl rfl)).1,
   ((cleanup_database_spec (Except.error "boom") (Except.ok ())).2.2 "boom"
      (Or.inl rfl)).2,
   (cleanup_database_spec (Except.ok ()) (Except.ok ())).2.1 rfl rfl⟩

end GitGuard
